import Mathlib

/-!
Shallow embedding of the xlm launcher's install/update orchestration
subsystem (src/commands/launch.rs).  Effectful operations (network
fetches, filesystem reads/writes, archive extraction, process spawning)
are modelled by explicit oracle environments recording the outcome of
each I/O step; the control flow of the Rust source is translated
directly.
-/

namespace Xlm

/-! ### Constants from src/commands/launch.rs -/

def XIVLAUNCHER_BIN_FILENAME : String := "XIVLauncher.Core"
def XIVLAUNCHER_VERSION_REMOTE_FILENAME : String := "version"
def XIVLAUNCHER_VERSIONDATA_LOCAL_FILENAME : String := "versiondata"
def ARIA2C_BIN_FILENAME : String := "aria2c"

/-! ### Errors

One constructor per distinct `bail!` / `?`-propagated failure site in the
source.  `anyhow` erases error types at runtime; the constructors here
track which site produced the error so propagation can be stated. -/

inductive XlmError where
  | releaseNotFound
  | assetNotFound
  | urlJoinFailed
  | remoteVersionUnavailable
  | bodyReadFailed
  | downloadFailed
  | payloadFetchFailed
  | payloadFileUnreadable
  | directoryCreateFailed
  | archiveExtractFailed
  | incompatibleReleaseArchive
  | incompatiblePayloadArchive
  | existsCheckFailed
  | versionWriteFailed
  | spawnFailed
  | waitFailed
  deriving Repr, DecidableEq

/-- `std::io::ErrorKind`, restricted to the distinction the source makes
(line 152: `err.kind() == ErrorKind::NotFound`). -/
inductive IoErrorKind where
  | notFound
  | permissionDenied
  | other
  deriving Repr, DecidableEq

/-! ### Filesystem model

The install root is a flat association list from filename to content:
the source only ever checks names directly under the install root and
reads/writes whole files there. -/

abbrev Fs := List (String × String)

/-- `fs::exists(dir.join(name))` on the modelled install root. -/
def fsExists (fs : Fs) (name : String) : Bool :=
  fs.any (fun e => e.1 == name)

/-- Content of the file `name`, if present. -/
def fsLookup (fs : Fs) (name : String) : Option String :=
  (fs.find? (fun e => e.1 == name)).map Prod.snd

/-- Create/overwrite the file `name` with `content` (truncating
semantics of `File::options().write(true).create(true).truncate(true)`,
and of tar extraction over an existing file). -/
def fsWrite (fs : Fs) (name content : String) : Fs :=
  (name, content) :: fs.filter (fun e => e.1 != name)

/-- Extract a list of archive entries into the install root, in order,
each overwriting any previous file of the same name. -/
def fsUnpack (fs : Fs) (entries : List (String × String)) : Fs :=
  entries.foldl (fun acc e => fsWrite acc e.1 e.2) fs

/-! ### Data model -/

/-- `ReleaseAssetInfo` (launch.rs lines 331-334). URLs are strings. -/
structure ReleaseAssetInfo where
  download_url : String
  version : String
  deriving Repr, DecidableEq

/-- `AriaSource` (launch.rs lines 290-296). -/
inductive AriaSource where
  | embedded
  | url (u : String)
  | file (p : String)
  deriving Repr, DecidableEq

/-! ### Release resolution -/

/-- One release asset as returned by the GitHub API. -/
structure GithubAsset where
  name : String
  browser_download_url : String
  deriving Repr, DecidableEq

/-- The latest release as returned by the GitHub API. -/
structure GithubRelease where
  tag_name : String
  assets : List GithubAsset
  deriving Repr, DecidableEq

/-- `ReleaseAssetInfo::from_github` (launch.rs lines 338-379).  The API
call outcome (`octocrab ... get_latest()`) is the oracle argument
`api`; an `Err` there hits the first `bail!`, otherwise the asset list
is searched for an exact name match. -/
def from_github (api : Except Unit GithubRelease)
    (_repo_owner _repo_name : String) (release_asset : String) :
    Except XlmError ReleaseAssetInfo :=
  match api with
  | .error _ => .error .releaseNotFound
  | .ok release =>
    match release.assets.find? (fun asset => asset.name == release_asset) with
    | some asset => .ok ⟨asset.browser_download_url, release.tag_name⟩
    | none => .error .assetNotFound

/-- An HTTP response: status code plus the outcome of reading the body
as text (`response.text()` can itself fail). -/
structure HttpResponse where
  status : Nat
  text : Except Unit String

/-- `reqwest::StatusCode::is_success`: 2xx. -/
def statusIsSuccess (s : Nat) : Bool :=
  200 ≤ s && s < 300

/-- Oracle for web-hosted resolution: `Url::join` (which can fail) and
`reqwest::get`. -/
structure WebEnv where
  urlJoin : String → String → Option String
  get : String → Except Unit HttpResponse

/-- `ReleaseAssetInfo::from_url` (launch.rs lines 382-398): join the base
with the asset name and with the version filename, GET the version URL,
require a success status, and return the body verbatim as the version
together with the (unfetched) asset URL. -/
def from_url (web : WebEnv) (base_url : String)
    (release_asset version_asset : String) : Except XlmError ReleaseAssetInfo :=
  match web.urlJoin base_url release_asset with
  | none => .error .urlJoinFailed
  | some release_url =>
    match web.urlJoin base_url version_asset with
    | none => .error .urlJoinFailed
    | some version_url =>
      match web.get version_url with
      | .error _ => .error .downloadFailed
      | .ok response =>
        if !statusIsSuccess response.status then
          .error .remoteVersionUnavailable
        else
          match response.text with
          | .error _ => .error .bodyReadFailed
          | .ok body => .ok ⟨release_url, body⟩

/-! ### install_or_update_xlcore (launch.rs lines 197-288) -/

/-- Oracle for the install/update operation: outcome of each I/O step,
in source order.  Archive unpacking yields the list of entries on
success, or the partially extracted entries on an extraction error. -/
structure InstallEnv where
  /-- `reqwest::get(release.download_url)` + `.bytes()` (lines 217-218). -/
  xlFetchOk : Bool
  /-- `xlcore_archive.unpack(install_location)` (line 249). -/
  xlUnpack : Except (List (String × String)) (List (String × String))
  /-- `reqwest::get(url)` + `.bytes()` for `AriaSource::Url` (lines 232-233). -/
  ariaFetchOk : Bool
  /-- `fs::read(path)` for `AriaSource::File` (line 237). -/
  ariaReadOk : Bool
  /-- `aria_archive.unpack(install_location)` (line 264). -/
  ariaUnpack : Except (List (String × String)) (List (String × String))
  /-- `fs::remove_dir_all(install_location)` (line 243; result discarded). -/
  deleteOk : Bool
  /-- `fs::create_dir_all(install_location)` (line 244). -/
  createOk : Bool
  /-- the `fs::exists` call at line 253. -/
  existsCheck1Ok : Bool
  /-- the `fs::exists` call at line 268. -/
  existsCheck2Ok : Bool
  /-- opening and writing the version file (lines 278-283). -/
  versionWriteOk : Bool

/-- Result of the install/update operation: the final install-root
contents, two ghost observations of control flow, and the returned
value.  `reachedCreate` records that execution got past the discarded
`remove_dir_all` result; `markerWritten` records that the version
marker write at lines 278-283 executed successfully. -/
structure InstallResult where
  fs : Fs
  reachedCreate : Bool
  markerWritten : Bool
  result : Except XlmError Unit
  deriving Repr

/-- Acquiring the aria2c archive bytes (launch.rs lines 221-240):
embedded bytes never fail; a URL source can fail the fetch; a file
source can fail the read. -/
def ariaAcquire (env : InstallEnv) : AriaSource → Except XlmError Unit
  | .embedded => .ok ()
  | .url _ => if env.ariaFetchOk then .ok () else .error .payloadFetchFailed
  | .file _ => if env.ariaReadOk then .ok () else .error .payloadFileUnreadable

/-- `install_or_update_xlcore` (launch.rs lines 197-288), translated
step by step.  `_is_update` only selects log/progress text in the
source.  `fs0` is the install root's contents on entry. -/
def install_or_update_xlcore (env : InstallEnv) (release : ReleaseAssetInfo)
    (aria_source : AriaSource) (_is_update : Bool) (fs0 : Fs) : InstallResult :=
  if !env.xlFetchOk then ⟨fs0, false, false, .error .downloadFailed⟩ else
  match ariaAcquire env aria_source with
  | .error e => ⟨fs0, false, false, .error e⟩
  | .ok _ =>
    let fs1 := if env.deleteOk then [] else fs0
    if !env.createOk then ⟨fs1, true, false, .error .directoryCreateFailed⟩ else
    match env.xlUnpack with
    | .error partEs =>
      ⟨fsUnpack fs1 partEs, true, false, .error .archiveExtractFailed⟩
    | .ok xlEs =>
      let fs2 := fsUnpack fs1 xlEs
      if !env.existsCheck1Ok then ⟨fs2, true, false, .error .existsCheckFailed⟩ else
      if !fsExists fs2 XIVLAUNCHER_BIN_FILENAME then
        ⟨fs2, true, false, .error .incompatibleReleaseArchive⟩ else
      match env.ariaUnpack with
      | .error partEs =>
        ⟨fsUnpack fs2 partEs, true, false, .error .archiveExtractFailed⟩
      | .ok ariaEs =>
        let fs3 := fsUnpack fs2 ariaEs
        if !env.existsCheck2Ok then ⟨fs3, true, false, .error .existsCheckFailed⟩ else
        if !fsExists fs3 ARIA2C_BIN_FILENAME then
          ⟨fs3, true, false, .error .incompatiblePayloadArchive⟩ else
        if !env.versionWriteOk then ⟨fs3, true, false, .error .versionWriteFailed⟩ else
        ⟨fsWrite fs3 XIVLAUNCHER_VERSIONDATA_LOCAL_FILENAME release.version,
          true, true, .ok ()⟩

/-! ### AriaSource::from_str (launch.rs lines 298-319) -/

/-- `s.starts_with(p)` on strings, computed structurally on the
character lists (Rust's `str::starts_with` for string patterns). -/
def strStartsWith (s p : String) : Bool :=
  p.toList.isPrefixOf s.toList

/-- Modelled from the spec: the spec's "trimmed" (Rust `str::trim`),
which removes leading and trailing whitespace.  The source never trims;
this definition exists only to compare the source's behaviour with what
the spec's wording would require. -/
def specTrim (s : String) : String :=
  ((s.toList.dropWhile Char.isWhitespace).reverse.dropWhile
    Char.isWhitespace).reverse.asString

/-- Outcome of `FromStr::from_str`, distinguishing a returned `Err`
from a panic (`.unwrap()` on a failed intermediate operation). -/
inductive ParseOutcome (α : Type) where
  | ok (a : α)
  | err (msg : String)
  | panicked
  deriving Repr, DecidableEq

/-- Oracle for `from_str`: the result of `Url::parse` and of
`fs::exists` on arbitrary strings. -/
structure FromStrEnv where
  urlParse : String → Option String
  fsExistsCheck : String → Except Unit Bool

/-- `s.chars().skip(n).collect::<String>()`. -/
def strSkip (s : String) (n : Nat) : String :=
  (s.toList.drop n).asString

/-- `AriaSource::from_str` (launch.rs lines 300-318): `"embedded"`
exactly, else a `url:` form whose remainder goes through
`Url::parse(..).unwrap()` (panicking when the parse fails), else a
`file:` form whose path is checked with
`fs::exists(..).context(..).unwrap()` (panicking when the check itself
fails, returning `Err` when the file is absent), else `Err`. -/
def AriaSource.from_str (env : FromStrEnv) (s : String) : ParseOutcome AriaSource :=
  if s == "embedded" then .ok .embedded
  else if strStartsWith s "url:" then
    match env.urlParse (strSkip s 4) with
    | some u => .ok (.url u)
    | none => .panicked
  else if strStartsWith s "file:" then
    let p := strSkip s 5
    match env.fsExistsCheck p with
    | .error _ => .panicked
    | .ok false => .err "unable to find file at given path"
    | .ok true => .ok (.file p)
  else .err "valid sources are embedded, url: or file:"

/-! ### LaunchCommand::run (launch.rs lines 91-193) -/

/-- The flags and configuration of `LaunchCommand` that the `run`
control flow reads (launch.rs lines 28-88). -/
structure LaunchCommand where
  xlcore_repo_owner : String
  xlcore_repo_name : String
  xlcore_release_asset : String
  xlcore_web_release_url_base : Option String
  aria_source : AriaSource
  use_fallback_secret_provider : Bool
  run_as_steam_compat_tool : Bool
  skip_update : Bool

/-- The environment the child process is spawned with (launch.rs lines
180-191): each field is the value of that variable in the child, `none`
meaning unset/removed. -/
structure ChildEnv where
  xl_secret_provider : Option String
  xl_sct : Option String
  xl_preload : Option String
  ld_preload : Option String
  deriving Repr, DecidableEq

/-- Oracle for a whole `run`: the GitHub API outcome, the web oracle,
the install-step oracle, the install root's contents on entry, and the
outcomes of the remaining I/O steps of `run` itself. -/
structure RunEnv where
  github : Except Unit GithubRelease
  web : WebEnv
  ienv : InstallEnv
  fs0 : Fs
  /-- the `fs::exists` call at line 115 itself succeeds. -/
  existsOk : Bool
  /-- when `some k`, `fs::read_to_string` of the version marker fails
  with kind `k` regardless of the file's presence (e.g. a permission
  error); when `none` the read faithfully reflects `fs0`. -/
  markerFault : Option IoErrorKind
  /-- `env::var("LD_PRELOAD")` in the parent (line 187). -/
  parentLdPreload : Option String
  /-- `.spawn()` at line 189. -/
  spawnOk : Bool
  /-- `.wait()` at line 190 returns without an I/O error. -/
  waitOk : Bool
  /-- the child's exit status, observed by `.wait()` and discarded. -/
  childExit : Int

/-- `fs::read_to_string(install_directory.join("versiondata"))`
(launch.rs lines 121-124) under the oracle. -/
def markerRead (env : RunEnv) : Except IoErrorKind String :=
  match env.markerFault with
  | some k => .error k
  | none =>
    match fsLookup env.fs0 XIVLAUNCHER_VERSIONDATA_LOCAL_FILENAME with
    | some v => .ok v
    | none => .error .notFound

/-- Release resolution as `run` performs it (launch.rs lines 95-112):
web-hosted when a base URL is configured, repository-hosted otherwise. -/
def resolveRelease (cmd : LaunchCommand) (env : RunEnv) :
    Except XlmError ReleaseAssetInfo :=
  match cmd.xlcore_web_release_url_base with
  | some url =>
    from_url env.web url cmd.xlcore_release_asset XIVLAUNCHER_VERSION_REMOTE_FILENAME
  | none =>
    from_github env.github cmd.xlcore_repo_owner cmd.xlcore_repo_name
      cmd.xlcore_release_asset

/-- Observable outcome of one `run`: whether `install_or_update_xlcore`
was invoked (and with which `is_update` argument), the environment of
the spawned child if the final spawn happened, the returned value, and
the install root's final contents. -/
structure RunOutcome where
  installCalled : Bool
  installIsUpdate : Option Bool
  launched : Option ChildEnv
  result : Except XlmError Unit
  finalFs : Fs
  deriving Repr

/-- The final launch step (launch.rs lines 179-192): build the child
environment, spawn, and block on `.wait()`; the child's exit status is
not consulted. -/
def launchStep (cmd : LaunchCommand) (env : RunEnv) (fs : Fs)
    (installCalled : Bool) (installIsUpdate : Option Bool) : RunOutcome :=
  if !env.spawnOk then
    ⟨installCalled, installIsUpdate, none, .error .spawnFailed, fs⟩
  else
    let cenv : ChildEnv :=
      ⟨if cmd.use_fallback_secret_provider then some "FILE" else none,
        if cmd.run_as_steam_compat_tool then some "1" else none,
        some (env.parentLdPreload.getD ""),
        none⟩
    if !env.waitOk then
      ⟨installCalled, installIsUpdate, some cenv, .error .waitFailed, fs⟩
    else
      ⟨installCalled, installIsUpdate, some cenv, .ok (), fs⟩

/-- `LaunchCommand::run` (launch.rs lines 91-193), step by step:
resolve the release; check for the main executable; either skip update
work, compare the version marker to the remote version, install on a
missing marker, or absorb (log only) any other marker-read error; then
launch. -/
def LaunchCommand.run (cmd : LaunchCommand) (env : RunEnv) : RunOutcome :=
  match resolveRelease cmd env with
  | .error e => ⟨false, none, none, .error e, env.fs0⟩
  | .ok release =>
    if !env.existsOk then ⟨false, none, none, .error .existsCheckFailed, env.fs0⟩
    else
      if fsExists env.fs0 XIVLAUNCHER_BIN_FILENAME && cmd.skip_update then
        launchStep cmd env env.fs0 false none
      else
        match markerRead env with
        | .ok local_ver =>
          if fsExists env.fs0 XIVLAUNCHER_BIN_FILENAME
              && local_ver == release.version then
            launchStep cmd env env.fs0 false none
          else
            match (install_or_update_xlcore env.ienv release
                cmd.aria_source true env.fs0).result with
            | .error e =>
              ⟨true, some true, none, .error e,
                (install_or_update_xlcore env.ienv release cmd.aria_source
                  true env.fs0).fs⟩
            | .ok _ =>
              launchStep cmd env
                (install_or_update_xlcore env.ienv release cmd.aria_source
                  true env.fs0).fs true (some true)
        | .error k =>
          if k = .notFound then
            match (install_or_update_xlcore env.ienv release
                cmd.aria_source false env.fs0).result with
            | .error e =>
              ⟨true, some false, none, .error e,
                (install_or_update_xlcore env.ienv release cmd.aria_source
                  false env.fs0).fs⟩
            | .ok _ =>
              launchStep cmd env
                (install_or_update_xlcore env.ienv release cmd.aria_source
                  false env.fs0).fs true (some false)
          else
            launchStep cmd env env.fs0 false none

/-! ### Helper lemmas -/

lemma fsLookup_fsWrite_self (fs : Fs) (n c : String) :
    fsLookup (fsWrite fs n c) n = some c := by
  simp [fsLookup, fsWrite, List.find?]

lemma launchStep_installCalled (cmd : LaunchCommand) (env : RunEnv) (fs : Fs)
    (ic : Bool) (iu : Option Bool) :
    (launchStep cmd env fs ic iu).installCalled = ic := by
  unfold launchStep
  repeat' split
  all_goals rfl

lemma launchStep_installIsUpdate (cmd : LaunchCommand) (env : RunEnv) (fs : Fs)
    (ic : Bool) (iu : Option Bool) :
    (launchStep cmd env fs ic iu).installIsUpdate = iu := by
  unfold launchStep
  repeat' split
  all_goals rfl

lemma launchStep_finalFs (cmd : LaunchCommand) (env : RunEnv) (fs : Fs)
    (ic : Bool) (iu : Option Bool) :
    (launchStep cmd env fs ic iu).finalFs = fs := by
  unfold launchStep
  repeat' split
  all_goals rfl

lemma launchStep_launched (cmd : LaunchCommand) (env : RunEnv) (fs : Fs)
    (ic : Bool) (iu : Option Bool) (ce : ChildEnv) :
    (launchStep cmd env fs ic iu).launched = some ce →
    ce = ⟨if cmd.use_fallback_secret_provider then some "FILE" else none,
          if cmd.run_as_steam_compat_tool then some "1" else none,
          some (env.parentLdPreload.getD ""), none⟩ := by
  unfold launchStep
  repeat' split
  all_goals simp
  all_goals intro h
  all_goals exact h.symm

lemma launchStep_result_ok (cmd : LaunchCommand) (env : RunEnv) (fs : Fs)
    (ic : Bool) (iu : Option Bool) (h1 : env.spawnOk = true)
    (h2 : env.waitOk = true) :
    (launchStep cmd env fs ic iu).result = .ok () := by
  simp [launchStep, h1, h2]

lemma launchStep_result_ok_iff (cmd : LaunchCommand) (env : RunEnv) (fs : Fs)
    (ic : Bool) (iu : Option Bool) :
    (launchStep cmd env fs ic iu).result = .ok () ↔
      env.spawnOk = true ∧ env.waitOk = true := by
  unfold launchStep
  constructor
  · intro h
    by_cases hs : env.spawnOk <;> by_cases hw : env.waitOk <;>
      simp [hs, hw] at h ⊢
  · rintro ⟨hs, hw⟩
    simp [hs, hw]

/-! ### Claims about install_or_update_xlcore -/

/-- **C6**: every successful run of `install_or_update_xlcore` with
resolved version `v` leaves the version marker containing exactly `v`
(prior content truncated), so reading the marker back yields `v`. -/
theorem install_marker_roundtrip (env : InstallEnv) (release : ReleaseAssetInfo)
    (src : AriaSource) (u : Bool) (fs0 : Fs) :
    (install_or_update_xlcore env release src u fs0).result = .ok () →
    fsLookup (install_or_update_xlcore env release src u fs0).fs
      XIVLAUNCHER_VERSIONDATA_LOCAL_FILENAME = some release.version := by
  intro h
  unfold install_or_update_xlcore at h ⊢
  repeat' split at h
  all_goals try simp_all [fsLookup_fsWrite_self]
  all_goals repeat' split at h
  all_goals simp_all [fsLookup_fsWrite_self]

/-- **C6 witness**: installing version `9.9.9` into an install root
whose marker previously read `1.0.0` reads back `9.9.9`. -/
theorem install_marker_roundtrip_witness :
    fsLookup (install_or_update_xlcore
        ⟨true, .ok [("XIVLauncher.Core", "bin")], true, true,
          .ok [("aria2c", "bin")], true, true, true, true, true⟩
        ⟨"https://x/app.tar.gz", "9.9.9"⟩ .embedded true
        [("versiondata", "1.0.0")]).fs
      XIVLAUNCHER_VERSIONDATA_LOCAL_FILENAME = some "9.9.9" :=
  install_marker_roundtrip
    ⟨true, .ok [("XIVLauncher.Core", "bin")], true, true,
      .ok [("aria2c", "bin")], true, true, true, true, true⟩
    ⟨"https://x/app.tar.gz", "9.9.9"⟩ .embedded true
    [("versiondata", "1.0.0")] rfl

/-- **C1**: if either archive extracts but the expected binary filename
is absent from the install root afterwards, the operation returns the
corresponding validation error and the version marker write never
executes; consequently the marker write having executed implies the
whole operation succeeded. -/
theorem install_validation_gates_marker (env : InstallEnv)
    (release : ReleaseAssetInfo) (src : AriaSource) (u : Bool) (fs0 : Fs) :
    ((∀ xlEs, env.xlFetchOk = true → ariaAcquire env src = .ok () →
      env.createOk = true → env.xlUnpack = .ok xlEs →
      env.existsCheck1Ok = true →
      fsExists (fsUnpack (if env.deleteOk then [] else fs0) xlEs)
        XIVLAUNCHER_BIN_FILENAME = false →
      (install_or_update_xlcore env release src u fs0).result =
        .error .incompatibleReleaseArchive ∧
      (install_or_update_xlcore env release src u fs0).markerWritten = false)
    ∧ (∀ xlEs ariaEs, env.xlFetchOk = true → ariaAcquire env src = .ok () →
      env.createOk = true → env.xlUnpack = .ok xlEs →
      env.existsCheck1Ok = true →
      fsExists (fsUnpack (if env.deleteOk then [] else fs0) xlEs)
        XIVLAUNCHER_BIN_FILENAME = true →
      env.ariaUnpack = .ok ariaEs → env.existsCheck2Ok = true →
      fsExists (fsUnpack (fsUnpack (if env.deleteOk then [] else fs0) xlEs)
        ariaEs) ARIA2C_BIN_FILENAME = false →
      (install_or_update_xlcore env release src u fs0).result =
        .error .incompatiblePayloadArchive ∧
      (install_or_update_xlcore env release src u fs0).markerWritten = false)
    ∧ ((install_or_update_xlcore env release src u fs0).markerWritten = true →
      (install_or_update_xlcore env release src u fs0).result = .ok ())) := by
  refine ⟨?_, ?_, ?_⟩
  · intro xlEs h1 h2 h3 h4 h5 h6
    simp [install_or_update_xlcore, h1, h2, h3, h4, h5, h6]
  · intro xlEs ariaEs h1 h2 h3 h4 h5 h6 h7 h8 h9
    simp [install_or_update_xlcore, h1, h2, h3, h4, h5, h6, h7, h8, h9]
  · intro h
    unfold install_or_update_xlcore at h ⊢
    repeat' split at h
    all_goals try simp_all
    all_goals repeat' split at h
    all_goals simp_all

/-- **C1 witness**: a release archive containing only `other.file`
fails validation with the marker unwritten, and a payload archive
missing `aria2c` likewise. -/
theorem install_validation_gates_marker_witness :
    ((install_or_update_xlcore
        ⟨true, .ok [("other.file", "x")], true, true, .ok [("aria2c", "bin")],
          true, true, true, true, true⟩
        ⟨"u", "1.0"⟩ .embedded true []).result =
      .error .incompatibleReleaseArchive ∧
    (install_or_update_xlcore
        ⟨true, .ok [("other.file", "x")], true, true, .ok [("aria2c", "bin")],
          true, true, true, true, true⟩
        ⟨"u", "1.0"⟩ .embedded true []).markerWritten = false)
    ∧ ((install_or_update_xlcore
        ⟨true, .ok [("XIVLauncher.Core", "bin")], true, true, .ok [("other", "x")],
          true, true, true, true, true⟩
        ⟨"u", "1.0"⟩ .embedded true []).result =
      .error .incompatiblePayloadArchive ∧
    (install_or_update_xlcore
        ⟨true, .ok [("XIVLauncher.Core", "bin")], true, true, .ok [("other", "x")],
          true, true, true, true, true⟩
        ⟨"u", "1.0"⟩ .embedded true []).markerWritten = false) :=
  ⟨(install_validation_gates_marker
      ⟨true, .ok [("other.file", "x")], true, true, .ok [("aria2c", "bin")],
        true, true, true, true, true⟩
      ⟨"u", "1.0"⟩ .embedded true []).1 [("other.file", "x")]
      rfl rfl rfl rfl rfl rfl,
   (install_validation_gates_marker
      ⟨true, .ok [("XIVLauncher.Core", "bin")], true, true, .ok [("other", "x")],
        true, true, true, true, true⟩
      ⟨"u", "1.0"⟩ .embedded true []).2.1 [("XIVLauncher.Core", "bin")]
      [("other", "x")] rfl rfl rfl rfl rfl rfl rfl rfl rfl⟩

/-- **C9**: the result of deleting the old install root is discarded —
once both archives' bytes are acquired, execution always reaches the
directory-recreation step regardless of whether the delete succeeded
and regardless of the prior contents (including an absent root, modelled
by `fs0 = []`) — while a failure to recreate the directory is fatal. -/
theorem install_delete_discarded_create_fatal (env : InstallEnv)
    (release : ReleaseAssetInfo) (src : AriaSource) (u : Bool) (fs0 : Fs) :
    (env.xlFetchOk = true → ariaAcquire env src = .ok () →
      (install_or_update_xlcore env release src u fs0).reachedCreate = true)
    ∧ (env.xlFetchOk = true → ariaAcquire env src = .ok () →
      env.createOk = false →
      (install_or_update_xlcore env release src u fs0).result =
        .error .directoryCreateFailed) := by
  constructor
  · intro h1 h2
    by_contra hc
    rw [Bool.not_eq_true] at hc
    unfold install_or_update_xlcore at hc
    repeat' split at hc
    all_goals try simp_all
    all_goals repeat' split at hc
    all_goals simp_all
  · intro h1 h2 h3
    simp [install_or_update_xlcore, h1, h2, h3]

/-- **C9 witness**: with a failing delete (`deleteOk = false`) over a
non-empty stale root the operation still reaches the create step, and
with a failing create it returns the directory-creation error. -/
theorem install_delete_discarded_create_fatal_witness :
    (install_or_update_xlcore
        ⟨true, .ok [("XIVLauncher.Core", "bin")], true, true,
          .ok [("aria2c", "bin")], false, true, true, true, true⟩
        ⟨"u", "1.0"⟩ .embedded true [("stale", "s")]).reachedCreate = true
    ∧ (install_or_update_xlcore
        ⟨true, .ok [("XIVLauncher.Core", "bin")], true, true,
          .ok [("aria2c", "bin")], true, false, true, true, true⟩
        ⟨"u", "1.0"⟩ .embedded true []).result =
      .error .directoryCreateFailed :=
  ⟨(install_delete_discarded_create_fatal
      ⟨true, .ok [("XIVLauncher.Core", "bin")], true, true,
        .ok [("aria2c", "bin")], false, true, true, true, true⟩
      ⟨"u", "1.0"⟩ .embedded true [("stale", "s")]).1 rfl rfl,
   (install_delete_discarded_create_fatal
      ⟨true, .ok [("XIVLauncher.Core", "bin")], true, true,
        .ok [("aria2c", "bin")], true, false, true, true, true⟩
      ⟨"u", "1.0"⟩ .embedded true []).2 rfl rfl rfl⟩

/-! ### Concrete fixtures for witnesses and counterexamples -/

/-- A GitHub API outcome: latest release `v2.1.0` with one asset
`app.tar.gz`. -/
def ghSample : Except Unit GithubRelease :=
  .ok ⟨"v2.1.0", [⟨"app.tar.gz", "https://dl/app.tar.gz"⟩]⟩

/-- A web oracle answering every GET with `200` and body `1.0.0`, and
joining URLs by concatenation. -/
def webSample : WebEnv :=
  ⟨fun b r => some (b ++ r), fun _ => .ok ⟨200, .ok "1.0.0"⟩⟩

/-- An install oracle where every I/O step succeeds and both archives
contain their expected binary. -/
def ienvSample : InstallEnv :=
  ⟨true, .ok [("XIVLauncher.Core", "bin")], true, true,
    .ok [("aria2c", "bin")], true, true, true, true, true⟩

/-- The default command configuration (repository-hosted source,
no skip-update). -/
def cmdSample : LaunchCommand :=
  ⟨"goatcorp", "XIVLauncher.Core", "app.tar.gz", none, .embedded,
    false, true, false⟩

/-- A run environment where the launcher binary is installed but
reading the version marker fails with a permission error. -/
def envMarkerFault : RunEnv :=
  ⟨ghSample, webSample, ienvSample, [("XIVLauncher.Core", "bin")],
    true, some .permissionDenied, none, true, true, 0⟩

/-- A run environment where release resolution fails (GitHub API
error). -/
def envResFail : RunEnv :=
  ⟨.error (), webSample, ienvSample, [("XIVLauncher.Core", "bin")],
    true, none, none, true, true, 0⟩

/-- A run environment with an up-to-date installation: binary present
and the marker reading `v2.1.0`. -/
def envCurrent : RunEnv :=
  ⟨ghSample, webSample, ienvSample,
    [("XIVLauncher.Core", "bin"), ("versiondata", "v2.1.0")],
    true, none, some "libfoo.so", true, true, 0⟩

/-- A run environment with a stale installation: binary present and the
marker reading `v2.0.0`. -/
def envStale : RunEnv :=
  ⟨ghSample, webSample, ienvSample,
    [("XIVLauncher.Core", "bin"), ("versiondata", "v2.0.0")],
    true, none, none, true, true, 0⟩

/-! ### Claims about LaunchCommand::run -/

/-- **C4**: with the main executable present and the skip-update flag
set, `run` does no install/update work and proceeds directly to the
launch step, whatever the version marker's state and whatever the
resolved remote version. -/
theorem run_skip_update_launches_immediately (cmd : LaunchCommand)
    (env : RunEnv) (r : ReleaseAssetInfo)
    (hres : resolveRelease cmd env = .ok r)
    (hex : env.existsOk = true)
    (hbin : fsExists env.fs0 XIVLAUNCHER_BIN_FILENAME = true)
    (hskip : cmd.skip_update = true) :
    (cmd.run env).installCalled = false ∧
    (cmd.run env).installIsUpdate = none ∧
    (cmd.run env).finalFs = env.fs0 ∧
    cmd.run env = launchStep cmd env env.fs0 false none := by
  have hrun : cmd.run env = launchStep cmd env env.fs0 false none := by
    unfold LaunchCommand.run
    rw [hres]
    simp [hex, hbin, hskip]
  rw [hrun]
  exact ⟨launchStep_installCalled .., launchStep_installIsUpdate ..,
    launchStep_finalFs .., rfl⟩

/-- **C4 witness**: a stale marker (`v2.0.0` vs remote `v2.1.0`) with
skip-update set still launches with no install work. -/
theorem run_skip_update_launches_immediately_witness :
    (LaunchCommand.run ⟨"goatcorp", "XIVLauncher.Core", "app.tar.gz", none,
        .embedded, false, true, true⟩ envStale).installCalled = false ∧
    (LaunchCommand.run ⟨"goatcorp", "XIVLauncher.Core", "app.tar.gz", none,
        .embedded, false, true, true⟩ envStale).installIsUpdate = none ∧
    (LaunchCommand.run ⟨"goatcorp", "XIVLauncher.Core", "app.tar.gz", none,
        .embedded, false, true, true⟩ envStale).finalFs = envStale.fs0 ∧
    LaunchCommand.run ⟨"goatcorp", "XIVLauncher.Core", "app.tar.gz", none,
        .embedded, false, true, true⟩ envStale =
      launchStep ⟨"goatcorp", "XIVLauncher.Core", "app.tar.gz", none,
        .embedded, false, true, true⟩ envStale envStale.fs0 false none :=
  run_skip_update_launches_immediately
    ⟨"goatcorp", "XIVLauncher.Core", "app.tar.gz", none,
      .embedded, false, true, true⟩ envStale
    ⟨"https://dl/app.tar.gz", "v2.1.0"⟩ rfl rfl rfl rfl

/-- **C5**: with the executable present, skip-update unset and the
marker readable with content `a`, the update decision skips the install
iff `a` equals the remote version as strings, byte for byte; any
difference triggers the install. -/
theorem run_update_decision_byte_equality (cmd : LaunchCommand)
    (env : RunEnv) (r : ReleaseAssetInfo) (a : String)
    (hres : resolveRelease cmd env = .ok r)
    (hex : env.existsOk = true)
    (hbin : fsExists env.fs0 XIVLAUNCHER_BIN_FILENAME = true)
    (hskip : cmd.skip_update = false)
    (hmr : markerRead env = .ok a) :
    ((cmd.run env).installCalled = false ↔ a = r.version) := by
  by_cases hv : a = r.version
  · have hrun : (cmd.run env).installCalled = false := by
      unfold LaunchCommand.run
      rw [hres]
      simp [hex, hbin, hskip, hmr, hv, launchStep_installCalled]
    simp [hrun, hv]
  · have hb : (a == r.version) = false := by
      simp [hv]
    have hrun : (cmd.run env).installCalled = true := by
      unfold LaunchCommand.run
      rw [hres]
      simp only [hex, hbin, hskip, hmr, hb]
      simp only [Bool.not_true, Bool.and_false, Bool.false_eq_true,
        if_false, Bool.true_and, Bool.and_self]
      split
      · rfl
      · exact launchStep_installCalled ..
    simp [hrun, hv]

/-- **C5 witness**: marker `v2.0.0` against remote `v2.1.0` decides to
install (the iff instantiated at a concrete unequal pair). -/
theorem run_update_decision_byte_equality_witness :
    ((cmdSample.run envStale).installCalled = false ↔ "v2.0.0" = "v2.1.0") :=
  run_update_decision_byte_equality cmdSample envStale
    ⟨"https://dl/app.tar.gz", "v2.1.0"⟩ "v2.0.0" rfl rfl rfl rfl rfl

/-- **C7**: whenever `run` spawns the final child, the child's
environment has the secrets-provider variable set (to `FILE`) exactly
when the fallback flag is set, the compatibility variable set (to `1`)
exactly when the compat-tool flag is set, the forwarding variable set
to the parent's `LD_PRELOAD` value (empty when unset), and `LD_PRELOAD`
itself removed; and the whole run outcome is unchanged under any child
exit status. -/
theorem run_child_environment (cmd : LaunchCommand) (env : RunEnv) :
    (∀ ce, (cmd.run env).launched = some ce →
      ce = ⟨if cmd.use_fallback_secret_provider then some "FILE" else none,
            if cmd.run_as_steam_compat_tool then some "1" else none,
            some (env.parentLdPreload.getD ""), none⟩)
    ∧ (∀ c : Int, cmd.run {env with childExit := c} = cmd.run env) := by
  constructor
  · intro ce h
    unfold LaunchCommand.run at h
    repeat' split at h
    all_goals first
      | exact launchStep_launched _ _ _ _ _ _ h
      | simp at h
  · intro c
    rfl

/-- **C7 witness**: a run with the fallback-secrets flag unset, the
compat-tool flag set and `LD_PRELOAD=libfoo.so` in the parent launches
a child with exactly `XL_SCT=1`, `XL_PRELOAD=libfoo.so` and no
`LD_PRELOAD`; the outcome is the same when the child exits with 7. -/
theorem run_child_environment_witness :
    ((⟨none, some "1", some "libfoo.so", none⟩ : ChildEnv) =
      ⟨if cmdSample.use_fallback_secret_provider then some "FILE" else none,
        if cmdSample.run_as_steam_compat_tool then some "1" else none,
        some (envCurrent.parentLdPreload.getD ""), none⟩)
    ∧ cmdSample.run {envCurrent with childExit := 7} = cmdSample.run envCurrent :=
  ⟨(run_child_environment cmdSample envCurrent).1
      ⟨none, some "1", some "libfoo.so", none⟩ rfl,
    (run_child_environment cmdSample envCurrent).2 7⟩

/-- **C2 counterexample**: with the launcher installed and a marker
read failing with a permission error (not not-found), the claim says
the run must terminate with a non-zero outcome; instead the code logs
the error, skips the install, proceeds to launch and returns success. -/
theorem run_marker_fault_absorbed_cex :
    markerRead envMarkerFault = .error .permissionDenied ∧
    IoErrorKind.permissionDenied ≠ .notFound ∧
    (cmdSample.run envMarkerFault).result = .ok () ∧
    (cmdSample.run envMarkerFault).installCalled = false := by
  refine ⟨rfl, by simp, rfl, rfl⟩

/-- **C2 (amended)**: errors from release resolution, the
executable-presence check, the install/update operation (at both of its
call sites: the fresh install on a missing marker and the update on a
stale marker), and the child spawn/wait all surface as the run's
non-success outcome; but BOTH kinds of marker-read failure are absorbed
locally: not-found triggers an install, and any other read failure
merely skips the install and proceeds straight to the launch step. -/
theorem run_error_propagation (cmd : LaunchCommand) (env : RunEnv) :
    ((cmd.run env).result = .ok () →
      (∃ r, resolveRelease cmd env = .ok r) ∧ env.existsOk = true ∧
      env.spawnOk = true ∧ env.waitOk = true)
    ∧ (∀ e, resolveRelease cmd env = .error e →
      (cmd.run env).result = .error e ∧ (cmd.run env).installCalled = false)
    ∧ (∀ r e, resolveRelease cmd env = .ok r → env.existsOk = true →
      markerRead env = .error .notFound →
      (fsExists env.fs0 XIVLAUNCHER_BIN_FILENAME && cmd.skip_update) = false →
      (install_or_update_xlcore env.ienv r cmd.aria_source false env.fs0).result
        = .error e →
      (cmd.run env).result = .error e)
    ∧ (∀ r a e, resolveRelease cmd env = .ok r → env.existsOk = true →
      markerRead env = .ok a →
      (fsExists env.fs0 XIVLAUNCHER_BIN_FILENAME && cmd.skip_update) = false →
      (fsExists env.fs0 XIVLAUNCHER_BIN_FILENAME && (a == r.version)) = false →
      (install_or_update_xlcore env.ienv r cmd.aria_source true env.fs0).result
        = .error e →
      (cmd.run env).result = .error e)
    ∧ (∀ k, markerRead env = .error k → k ≠ .notFound →
      (∃ r, resolveRelease cmd env = .ok r) → env.existsOk = true →
      cmd.run env = launchStep cmd env env.fs0 false none) := by
  refine ⟨?_, ?_, ?_, ?_, ?_⟩
  · intro h
    unfold LaunchCommand.run at h
    repeat' split at h
    all_goals simp_all [launchStep_result_ok_iff]
  · intro e he
    unfold LaunchCommand.run
    rw [he]
    exact ⟨rfl, rfl⟩
  · intro r e hres hex hmr hcond hinst
    unfold LaunchCommand.run
    rw [hres]
    simp [hex, hcond, hmr, hinst]
  · intro r a e hres hex hmr hcond hne hinst
    unfold LaunchCommand.run
    rw [hres]
    simp [hex, hcond, hmr, hne, hinst]
  · rintro k hmr hk ⟨r, hres⟩ hex
    unfold LaunchCommand.run
    rw [hres]
    rcases hcond : fsExists env.fs0 XIVLAUNCHER_BIN_FILENAME && cmd.skip_update with _ | _
    · simp [hex, hcond, hmr, hk]
    · simp [hex, hcond]

/-- A run environment with a stale installation (marker `v2.0.0`)
whose update attempt fails: the release download errors out. -/
def envStaleFail : RunEnv :=
  ⟨ghSample, webSample, {ienvSample with xlFetchOk := false},
    [("XIVLauncher.Core", "bin"), ("versiondata", "v2.0.0")],
    true, none, none, true, true, 0⟩

/-- **C2 (amended) witness**: a failing GitHub resolution surfaces as
the run's error with no install attempted; a download failure during a
stale-marker update surfaces as the run's error; and a
permission-denied marker read is absorbed: the run goes straight to
the launch step. -/
theorem run_error_propagation_witness :
    ((cmdSample.run envResFail).result = .error .releaseNotFound ∧
      (cmdSample.run envResFail).installCalled = false)
    ∧ (cmdSample.run envStaleFail).result = .error .downloadFailed
    ∧ cmdSample.run envMarkerFault =
        launchStep cmdSample envMarkerFault envMarkerFault.fs0 false none :=
  ⟨(run_error_propagation cmdSample envResFail).2.1 .releaseNotFound rfl,
    (run_error_propagation cmdSample envStaleFail).2.2.2.1
      ⟨"https://dl/app.tar.gz", "v2.1.0"⟩ "v2.0.0" .downloadFailed
      rfl rfl rfl rfl rfl rfl,
    (run_error_propagation cmdSample envMarkerFault).2.2.2.2 .permissionDenied
      rfl (by simp) ⟨⟨"https://dl/app.tar.gz", "v2.1.0"⟩, rfl⟩ rfl⟩

/-! ### Claims about release resolution and AriaSource parsing -/

/-- A web oracle whose version body carries a trailing newline. -/
def webNewline : WebEnv :=
  ⟨fun b r => some (b ++ r), fun _ => .ok ⟨200, .ok "1.0\n"⟩⟩

/-- A web oracle answering every GET with a 404. -/
def web404 : WebEnv :=
  ⟨fun b r => some (b ++ r), fun _ => .ok ⟨404, .error ()⟩⟩

/-- **C3 counterexample**: the version body is returned verbatim, NOT
trimmed — a body `"1.0\n"` yields version `"1.0\n"`, whose trim
`"1.0"` differs, contradicting the claim that the body is trimmed. -/
theorem from_url_untrimmed_cex :
    from_url webNewline "https://x/" "app.tar.gz"
      XIVLAUNCHER_VERSION_REMOTE_FILENAME =
      .ok ⟨"https://x/app.tar.gz", "1.0\n"⟩ ∧
    specTrim "1.0\n" = "1.0" ∧ ("1.0\n" : String) ≠ specTrim "1.0\n" := by
  refine ⟨rfl, by decide, by decide⟩

/-- **C3 (amended)**: web-hosted resolution fetches the base joined
with the fixed name `version`, returns its body verbatim (untrimmed) as
the version string together with the unfetched asset URL (base joined
with the asset filename); a non-success status on the version URL makes
resolution fail, and a failed resolution means `run` never attempts any
install/extraction. -/
theorem from_url_web_resolution (web : WebEnv) (base f : String) :
    ((∀ ru vu resp body,
      web.urlJoin base f = some ru →
      web.urlJoin base XIVLAUNCHER_VERSION_REMOTE_FILENAME = some vu →
      web.get vu = .ok resp → statusIsSuccess resp.status = true →
      resp.text = .ok body →
      from_url web base f XIVLAUNCHER_VERSION_REMOTE_FILENAME = .ok ⟨ru, body⟩)
    ∧ (∀ ru vu resp,
      web.urlJoin base f = some ru →
      web.urlJoin base XIVLAUNCHER_VERSION_REMOTE_FILENAME = some vu →
      web.get vu = .ok resp → statusIsSuccess resp.status = false →
      from_url web base f XIVLAUNCHER_VERSION_REMOTE_FILENAME =
        .error .remoteVersionUnavailable)
    ∧ (∀ (cmd : LaunchCommand) (env : RunEnv) e,
      cmd.xlcore_web_release_url_base = some base →
      env.web = web → cmd.xlcore_release_asset = f →
      from_url web base f XIVLAUNCHER_VERSION_REMOTE_FILENAME = .error e →
      (cmd.run env).installCalled = false ∧
      (cmd.run env).result = .error e)) := by
  refine ⟨?_, ?_, ?_⟩
  · intro ru vu resp body h1 h2 h3 h4 h5
    simp [from_url, h1, h2, h3, h4, h5]
  · intro ru vu resp h1 h2 h3 h4
    simp [from_url, h1, h2, h3, h4]
  · intro cmd env e hbase hweb hasset hfail
    have hres : resolveRelease cmd env = .error e := by
      simp [resolveRelease, hbase, hweb, hasset, hfail]
    unfold LaunchCommand.run
    rw [hres]
    exact ⟨rfl, rfl⟩

/-- **C3 (amended) witness**: base `https://x/` with asset
`app.tar.gz` resolves to the asset URL `https://x/app.tar.gz` and the
verbatim body `1.0.0`; the same configuration against a 404 version URL
fails with the remote-version error. -/
theorem from_url_web_resolution_witness :
    from_url webSample "https://x/" "app.tar.gz"
        XIVLAUNCHER_VERSION_REMOTE_FILENAME =
      .ok ⟨"https://x/app.tar.gz", "1.0.0"⟩ ∧
    from_url web404 "https://x/" "app.tar.gz"
        XIVLAUNCHER_VERSION_REMOTE_FILENAME =
      .error .remoteVersionUnavailable :=
  ⟨(from_url_web_resolution webSample "https://x/" "app.tar.gz").1
      "https://x/app.tar.gz" "https://x/version" ⟨200, .ok "1.0.0"⟩ "1.0.0"
      rfl rfl rfl rfl rfl,
    (from_url_web_resolution web404 "https://x/" "app.tar.gz").2.1
      "https://x/app.tar.gz" "https://x/version" ⟨404, .error ()⟩
      rfl rfl rfl rfl⟩

/-- **C8**: repository-hosted resolution returns the download URL of an
asset whose name equals the configured filename exactly, paired with
the release tag verbatim; when no asset name matches it fails with the
asset-not-found error. -/
theorem from_github_exact_asset (rel : GithubRelease)
    (owner name asset : String) :
    ((∃ a, a ∈ rel.assets ∧ a.name = asset) →
      ∃ a, a ∈ rel.assets ∧ a.name = asset ∧
        from_github (.ok rel) owner name asset =
          .ok ⟨a.browser_download_url, rel.tag_name⟩)
    ∧ ((∀ a, a ∈ rel.assets → a.name ≠ asset) →
      from_github (.ok rel) owner name asset = .error .assetNotFound) := by
  constructor
  · rintro ⟨a0, ha0, hname⟩
    rcases hfind : rel.assets.find? (fun x => x.name == asset) with _ | a
    · exfalso
      rw [List.find?_eq_none] at hfind
      exact absurd (by simpa using hname) (by simpa using hfind a0 ha0)
    · refine ⟨a, List.mem_of_find?_eq_some hfind, ?_, ?_⟩
      · have := List.find?_some hfind
        simpa using this
      · simp [from_github, hfind]
  · intro hall
    have hfind : rel.assets.find? (fun x => x.name == asset) = none := by
      rw [List.find?_eq_none]
      intro a ha
      simpa using hall a ha
    simp [from_github, hfind]

/-- **C8 witness**: the spec's scenario — tag `v2.1.0`, one asset
`app.tar.gz` — resolves that asset when configured as `app.tar.gz` and
fails with asset-not-found when configured as `other.tar.gz`. -/
theorem from_github_exact_asset_witness :
    (∃ a, a ∈ (⟨"v2.1.0", [⟨"app.tar.gz", "https://dl/app.tar.gz"⟩]⟩ :
        GithubRelease).assets ∧ a.name = "app.tar.gz" ∧
      from_github (.ok ⟨"v2.1.0", [⟨"app.tar.gz", "https://dl/app.tar.gz"⟩]⟩)
        "goatcorp" "XIVLauncher.Core" "app.tar.gz" =
        .ok ⟨a.browser_download_url,
          (⟨"v2.1.0", [⟨"app.tar.gz", "https://dl/app.tar.gz"⟩]⟩ :
            GithubRelease).tag_name⟩)
    ∧ from_github (.ok ⟨"v2.1.0", [⟨"app.tar.gz", "https://dl/app.tar.gz"⟩]⟩)
        "goatcorp" "XIVLauncher.Core" "other.tar.gz" = .error .assetNotFound :=
  ⟨(from_github_exact_asset ⟨"v2.1.0", [⟨"app.tar.gz", "https://dl/app.tar.gz"⟩]⟩
      "goatcorp" "XIVLauncher.Core" "app.tar.gz").1
      ⟨⟨"app.tar.gz", "https://dl/app.tar.gz"⟩, by simp, rfl⟩,
    (from_github_exact_asset ⟨"v2.1.0", [⟨"app.tar.gz", "https://dl/app.tar.gz"⟩]⟩
      "goatcorp" "XIVLauncher.Core" "other.tar.gz").2 (by decide)⟩

/-- A parse oracle where no string parses as a URL and no file
exists. -/
def fsenvAbsent : FromStrEnv :=
  ⟨fun _ => none, fun _ => .ok false⟩

/-- **C10 counterexample**: the claim that ONLY inputs matching none of
the three prefixes produce a proper `Err` is false — a `file:` input
whose path does not exist also returns a proper `Err`. -/
theorem from_str_file_err_cex :
    strStartsWith "file:missing" "file:" = true ∧
    AriaSource.from_str fsenvAbsent "file:missing" =
      .err "unable to find file at given path" := by
  refine ⟨by decide, rfl⟩

/-- **C10 (amended)**: `from_str` panics (unwrap on URL parse) on every
`url:` input whose remainder fails to parse, instead of returning the
`Err` of its `FromStr` contract; proper `Err` values arise both from
inputs matching none of the three prefixes and from `file:` inputs
whose path does not exist. -/
theorem from_str_behaviour (env : FromStrEnv) (s : String) :
    ((strStartsWith s "url:" = true → s ≠ "embedded" →
      env.urlParse (strSkip s 4) = none →
      AriaSource.from_str env s = .panicked)
    ∧ (s ≠ "embedded" → strStartsWith s "url:" = false →
      strStartsWith s "file:" = false →
      AriaSource.from_str env s = .err "valid sources are embedded, url: or file:")
    ∧ (s ≠ "embedded" → strStartsWith s "url:" = false →
      strStartsWith s "file:" = true →
      env.fsExistsCheck (strSkip s 5) = .ok false →
      AriaSource.from_str env s = .err "unable to find file at given path")) := by
  refine ⟨?_, ?_, ?_⟩
  · intro h1 h2 h3
    simp [AriaSource.from_str, h1, h2, h3]
  · intro h1 h2 h3
    simp [AriaSource.from_str, h1, h2, h3]
  · intro h1 h2 h3 h4
    simp [AriaSource.from_str, h1, h2, h3, h4]

/-- **C10 (amended) witness**: `url:not a url` panics under an oracle
where the remainder does not parse, and `bogus` yields the proper
`Err`. -/
theorem from_str_behaviour_witness :
    AriaSource.from_str fsenvAbsent "url:not a url" = .panicked ∧
    AriaSource.from_str fsenvAbsent "bogus" =
      .err "valid sources are embedded, url: or file:" :=
  ⟨(from_str_behaviour fsenvAbsent "url:not a url").1 (by decide) (by decide) rfl,
    (from_str_behaviour fsenvAbsent "bogus").2.1 (by decide) (by decide)
      (by decide)⟩

end Xlm
